import Mathlib

/-
  Verification development for the NYC-Transit-Project ETL pipeline
  (src/etl pipeline/).  Pandas float columns are embedded as ℚ; nullable
  cells (NaN) and table-level column absence are both embedded as Option.
  Each definition mirrors one function (or one block) of the Python source,
  cited by file and line.
-/

namespace NYC

/-- numpy.clip x lo hi = min (max x lo) hi. -/
def npClip (x lo hi : ℚ) : ℚ := min (max x lo) hi

/-- pandas.cut with bins (-inf, b1], (b1, b2], ..., (bk, +inf): walk the
interior boundaries in order; the final label is for the unbounded top
interval.  Mirrors the right-closed default of pd.cut. -/
def pdCut (x : ℚ) : List (ℚ × String) → String → String
  | [], top => top
  | (b, lab) :: rest, top => if x ≤ b then lab else pdCut x rest top

/-- Celsius→Fahrenheit, data_transformation.py line 164. -/
def fahrenheit (c : ℚ) : ℚ := c * (9/5) + 32

/-- mm→inches, data_transformation.py line 169 (division by 25.4). -/
def inches (m : ℚ) : ℚ := m / (254/10)

/-- m/s→mph, data_transformation.py line 174 (multiplication by 2.237). -/
def mph (w : ℚ) : ℚ := w * (2237/1000)

/-- temp_category bucketing, data_transformation.py lines 203-208:
pd.cut with bins [-inf, 32, 50, 68, 85, inf]. -/
def temp_category (t : ℚ) : String :=
  pdCut t [(32, "Freezing"), (50, "Cold"), (68, "Mild"), (85, "Warm")] "Hot"

/-- rain_category bucketing, data_transformation.py lines 211-216:
pd.cut with bins [-inf, 0.01, 0.1, 0.5, inf]. -/
def rain_category (p : ℚ) : String :=
  pdCut p [(1/100, "No Rain"), (1/10, "Light Rain"), (1/2, "Moderate Rain")] "Heavy Rain"

/-- One row of the merged table before feature derivation.  A missing value
(absent column or NaN cell) is none. -/
structure MergedRow where
  date : ℤ
  ridership : Option ℚ
  transfers : Option ℚ
  temperature_mean : Option ℚ
  precipitation : Option ℚ
  windspeed : Option ℚ
deriving DecidableEq

/-- One row after DataTransformer.add_derived_features (the claim-relevant
columns; purely calendar-valued columns are not modelled). -/
structure FeaturedRow where
  date : ℤ
  ridership : Option ℚ
  transfers : Option ℚ
  temperature_mean : Option ℚ
  precipitation : Option ℚ
  windspeed : Option ℚ
  temperature_f : Option ℚ
  precipitation_in : Option ℚ
  windspeed_mph : Option ℚ
  temp_category : Option String
  rain_category : Option String
  is_rainy : Option ℕ
  weather_impact_score : Option ℚ
  weather_condition : Option String
deriving DecidableEq

/-- Row-wise embedding of DataTransformer.add_derived_features,
data_transformation.py lines 162-236.  Unit conversions happen first
(lines 162-175, each guarded by presence of its raw source column), then
the weather buckets (lines 202-217), then the composite impact score
(lines 219-236), which exists only when all three converted columns are
present.  Note line 222: the temperature term abs(t-65)/30 is NOT passed
through np.clip, unlike the precipitation and wind terms. -/
def add_derived_features (r : MergedRow) : FeaturedRow :=
  let temperature_f := r.temperature_mean.map fahrenheit
  let precipitation_in := r.precipitation.map inches
  let windspeed_mph := r.windspeed.map mph
  let weather_impact_score : Option ℚ :=
    match temperature_f, precipitation_in, windspeed_mph with
    | some t, some p, some w =>
        some ((|t - 65| / 30) * (4/10)
              + npClip (p / (1/2)) 0 1 * (4/10)
              + npClip (w / 25) 0 1 * (2/10))
    | _, _, _ => none
  { date := r.date
    ridership := r.ridership
    transfers := r.transfers
    temperature_mean := r.temperature_mean
    precipitation := r.precipitation
    windspeed := r.windspeed
    temperature_f := temperature_f
    precipitation_in := precipitation_in
    windspeed_mph := windspeed_mph
    temp_category := temperature_f.map temp_category
    rain_category := precipitation_in.map rain_category
    is_rainy := precipitation_in.map (fun p => if p > 1/100 then 1 else 0)
    weather_impact_score := weather_impact_score
    weather_condition := weather_impact_score.map (fun s =>
      pdCut s [(3/10, "Good"), (6/10, "Moderate")] "Poor") }

/-- Modelled from the spec wording of claim C1 (not from the code): the
composite score with the temperature term ALSO clipped to [0,1]; to be
compared with the score computed by add_derived_features. -/
def specWeatherImpactScore (t p w : ℚ) : ℚ :=
  npClip (|t - 65| / 30) 0 1 * (4/10)
  + npClip (p / (1/2)) 0 1 * (4/10)
  + npClip (w / 25) 0 1 * (2/10)

/-- Claim C4: for every merged row the unit conversions are pure and exact
with no clamping (hence injective): temperature_f = temperature_mean*9/5+32,
precipitation_in = precipitation/25.4, windspeed_mph = windspeed*2.237,
each computed exactly when its raw source column is present. -/
theorem C4_unit_conversions_exact (r : MergedRow) :
    (add_derived_features r).temperature_f = r.temperature_mean.map fahrenheit
    ∧ (add_derived_features r).precipitation_in = r.precipitation.map inches
    ∧ (add_derived_features r).windspeed_mph = r.windspeed.map mph
    ∧ (∀ c : ℚ, fahrenheit c = c * 9 / 5 + 32)
    ∧ (∀ m : ℚ, inches m = m / (254/10))
    ∧ (∀ w : ℚ, mph w = w * (2237/1000))
    ∧ Function.Injective fahrenheit
    ∧ Function.Injective inches
    ∧ Function.Injective mph
    ∧ ((add_derived_features r).temperature_f = none ↔ r.temperature_mean = none)
    ∧ ((add_derived_features r).precipitation_in = none ↔ r.precipitation = none)
    ∧ ((add_derived_features r).windspeed_mph = none ↔ r.windspeed = none) := by
  refine ⟨rfl, rfl, rfl, ?_, fun m => rfl, fun w => rfl, ?_, ?_, ?_, ?_, ?_, ?_⟩
  · intro c; unfold fahrenheit; ring
  · intro a b h
    have : a * (9/5) = b * (9/5) := by
      have := congrArg (fun x => x - 32) h
      simpa [fahrenheit] using this
    have h95 : (9/5 : ℚ) ≠ 0 := by norm_num
    exact mul_right_cancel₀ h95 this
  · intro a b h
    unfold inches at h
    rw [div_eq_div_iff (by norm_num) (by norm_num)] at h
    exact mul_right_cancel₀ (by norm_num) h
  · intro a b h
    have h2237 : (2237/1000 : ℚ) ≠ 0 := by norm_num
    exact mul_right_cancel₀ h2237 h
  · simp [add_derived_features, Option.map_eq_none']
  · simp [add_derived_features, Option.map_eq_none']
  · simp [add_derived_features, Option.map_eq_none']

lemma temp_category_eq_ite (t : ℚ) :
    temp_category t =
      if t ≤ 32 then "Freezing"
      else if t ≤ 50 then "Cold"
      else if t ≤ 68 then "Mild"
      else if t ≤ 85 then "Warm"
      else "Hot" := rfl

lemma temp_category_freezing_iff (t : ℚ) : temp_category t = "Freezing" ↔ t ≤ 32 := by
  rw [temp_category_eq_ite]
  split_ifs with h1 h2 h3 h4
  · exact iff_of_true rfl h1
  · exact iff_of_false (by decide) h1
  · exact iff_of_false (by decide) h1
  · exact iff_of_false (by decide) h1
  · exact iff_of_false (by decide) h1

lemma temp_category_cold_iff (t : ℚ) : temp_category t = "Cold" ↔ 32 < t ∧ t ≤ 50 := by
  rw [temp_category_eq_ite]
  split_ifs with h1 h2 h3 h4
  · exact iff_of_false (by decide) (fun hc => absurd hc.1 (not_lt.mpr h1))
  · exact iff_of_true rfl ⟨not_le.mp h1, h2⟩
  · exact iff_of_false (by decide) (fun hc => h2 hc.2)
  · exact iff_of_false (by decide) (fun hc => h2 hc.2)
  · exact iff_of_false (by decide) (fun hc => h2 hc.2)

lemma temp_category_mild_iff (t : ℚ) : temp_category t = "Mild" ↔ 50 < t ∧ t ≤ 68 := by
  rw [temp_category_eq_ite]
  split_ifs with h1 h2 h3 h4
  · exact iff_of_false (by decide) (fun hc => absurd hc.1 (not_lt.mpr (h1.trans (by norm_num))))
  · exact iff_of_false (by decide) (fun hc => absurd hc.1 (not_lt.mpr h2))
  · exact iff_of_true rfl ⟨not_le.mp h2, h3⟩
  · exact iff_of_false (by decide) (fun hc => h3 hc.2)
  · exact iff_of_false (by decide) (fun hc => h3 hc.2)

lemma temp_category_warm_iff (t : ℚ) : temp_category t = "Warm" ↔ 68 < t ∧ t ≤ 85 := by
  rw [temp_category_eq_ite]
  split_ifs with h1 h2 h3 h4
  · exact iff_of_false (by decide) (fun hc => absurd hc.1 (not_lt.mpr (h1.trans (by norm_num))))
  · exact iff_of_false (by decide) (fun hc => absurd hc.1 (not_lt.mpr (h2.trans (by norm_num))))
  · exact iff_of_false (by decide) (fun hc => absurd hc.1 (not_lt.mpr h3))
  · exact iff_of_true rfl ⟨not_le.mp h3, h4⟩
  · exact iff_of_false (by decide) (fun hc => h4 hc.2)

lemma temp_category_hot_iff (t : ℚ) : temp_category t = "Hot" ↔ 85 < t := by
  rw [temp_category_eq_ite]
  split_ifs with h1 h2 h3 h4
  · exact iff_of_false (by decide) (fun hc => absurd hc (not_lt.mpr (h1.trans (by norm_num))))
  · exact iff_of_false (by decide) (fun hc => absurd hc (not_lt.mpr (h2.trans (by norm_num))))
  · exact iff_of_false (by decide) (fun hc => absurd hc (not_lt.mpr (h3.trans (by norm_num))))
  · exact iff_of_false (by decide) (fun hc => absurd hc (not_lt.mpr h4))
  · exact iff_of_true rfl (not_le.mp h4)

/-- Claim C3: whenever temperature_f is present, temp_category is assigned,
takes exactly one of the five labels, and partitions the Fahrenheit line
with half-open-left intervals at 32/50/68/85; in particular exactly 32
falls in Freezing, not Cold. -/
theorem C3_temp_category_partition (r : MergedRow) (t : ℚ)
    (ht : (add_derived_features r).temperature_f = some t) :
    (add_derived_features r).temp_category = some (temp_category t)
    ∧ (temp_category t = "Freezing" ↔ t ≤ 32)
    ∧ (temp_category t = "Cold" ↔ 32 < t ∧ t ≤ 50)
    ∧ (temp_category t = "Mild" ↔ 50 < t ∧ t ≤ 68)
    ∧ (temp_category t = "Warm" ↔ 68 < t ∧ t ≤ 85)
    ∧ (temp_category t = "Hot" ↔ 85 < t)
    ∧ temp_category t ∈ ["Freezing", "Cold", "Mild", "Warm", "Hot"]
    ∧ temp_category (32 : ℚ) = "Freezing" ∧ temp_category (32 : ℚ) ≠ "Cold" := by
  have hmap : (add_derived_features r).temp_category = some (temp_category t) := by
    simp only [add_derived_features] at ht ⊢
    rw [ht]
    rfl
  have hmem : temp_category t ∈ ["Freezing", "Cold", "Mild", "Warm", "Hot"] := by
    rw [temp_category_eq_ite]
    split_ifs <;> simp
  refine ⟨hmap, temp_category_freezing_iff t, temp_category_cold_iff t,
    temp_category_mild_iff t, temp_category_warm_iff t, temp_category_hot_iff t,
    hmem, ?_, ?_⟩
  · exact (temp_category_freezing_iff 32).mpr le_rfl
  · intro h
    exact absurd ((temp_category_cold_iff 32).mp h).1 (lt_irrefl 32)

/-- Concrete instantiation of C3_temp_category_partition. -/
theorem C3_temp_category_partition_witness :
    ((add_derived_features
        { date := 0, ridership := none, transfers := none,
          temperature_mean := some 15, precipitation := none,
          windspeed := none }).temperature_f = some (fahrenheit 15))
    ∧ ((add_derived_features
        { date := 0, ridership := none, transfers := none,
          temperature_mean := some 15, precipitation := none,
          windspeed := none }).temp_category = some (temp_category (fahrenheit 15))) :=
  ⟨rfl,
   (C3_temp_category_partition
      { date := 0, ridership := none, transfers := none,
        temperature_mean := some 15, precipitation := none,
        windspeed := none } (fahrenheit 15) rfl).1⟩

lemma npClip01_nonneg (x : ℚ) : 0 ≤ npClip x 0 1 :=
  le_min (le_max_right x 0) zero_le_one

lemma npClip01_le_one (x : ℚ) : npClip x 0 1 ≤ 1 := min_le_right _ _

/-- Claim C1 counterexample: at temperature_mean 70 °C (158 °F) with zero
precipitation and wind, the code computes weather_impact_score 31/25 = 1.24,
which exceeds 1 and differs from the spec formula value 0.4 obtained by
clipping the temperature term. -/
theorem C1_weather_impact_score_counterexample :
    (add_derived_features
        { date := 0, ridership := none, transfers := none,
          temperature_mean := some 70, precipitation := some 0,
          windspeed := some 0 }).weather_impact_score = some (31/25)
    ∧ ¬ ((31/25 : ℚ) ≤ 1)
    ∧ specWeatherImpactScore (fahrenheit 70) 0 0 = 2/5
    ∧ (31/25 : ℚ) ≠ 2/5 := by
  have habs : |fahrenheit 70 - 65| = (93 : ℚ) := by
    have h1 : fahrenheit 70 - 65 = (93 : ℚ) := by norm_num [fahrenheit]
    rw [h1, abs_of_nonneg (by norm_num)]
  refine ⟨?_, by norm_num, ?_, by norm_num⟩
  · show some ((|fahrenheit 70 - 65| / 30) * (4/10)
        + npClip (inches 0 / (1/2)) 0 1 * (4/10)
        + npClip (mph 0 / 25) 0 1 * (2/10)) = some (31/25)
    rw [habs]
    norm_num [npClip, inches, mph]
  · rw [specWeatherImpactScore, habs]
    norm_num [npClip]

/-- Claim C1 (amended): when all three converted columns are present the
score is 0.4*(|temperature_f-65|/30) + 0.4*clip(precipitation_in/0.5,0,1)
+ 0.2*clip(windspeed_mph/25,0,1) with NO clipping of the temperature term;
the score is nonnegative, lies in [0,1] whenever |temperature_f-65| <= 30
(but can exceed 1 otherwise), and weather_condition is Good for score <= 0.3,
Moderate for (0.3,0.6], Poor for > 0.6. -/
theorem C1_weather_impact_score_formula (r : MergedRow) (c m w : ℚ)
    (hc : r.temperature_mean = some c) (hm : r.precipitation = some m)
    (hw : r.windspeed = some w) :
    ∃ s : ℚ,
      (add_derived_features r).weather_impact_score = some s
      ∧ s = (|fahrenheit c - 65| / 30) * (4/10)
            + npClip (inches m / (1/2)) 0 1 * (4/10)
            + npClip (mph w / 25) 0 1 * (2/10)
      ∧ 0 ≤ s
      ∧ (|fahrenheit c - 65| ≤ 30 → s ≤ 1)
      ∧ (s ≤ 3/10 → (add_derived_features r).weather_condition = some "Good")
      ∧ (3/10 < s → s ≤ 6/10 →
          (add_derived_features r).weather_condition = some "Moderate")
      ∧ (6/10 < s → (add_derived_features r).weather_condition = some "Poor") := by
  refine ⟨(|fahrenheit c - 65| / 30) * (4/10)
      + npClip (inches m / (1/2)) 0 1 * (4/10)
      + npClip (mph w / 25) 0 1 * (2/10), ?_, rfl, ?_, ?_, ?_, ?_, ?_⟩
  · simp only [add_derived_features]
    rw [hc, hm, hw]
    rfl
  · have h1 : (0:ℚ) ≤ (|fahrenheit c - 65| / 30) * (4/10) :=
      mul_nonneg (div_nonneg (abs_nonneg _) (by norm_num)) (by norm_num)
    have h2 := npClip01_nonneg (inches m / (1/2))
    have h3 := npClip01_nonneg (mph w / 25)
    nlinarith
  · intro hb
    have h1 : (|fahrenheit c - 65| / 30) * (4/10) ≤ 4/10 := by
      have : |fahrenheit c - 65| / 30 ≤ 1 := by
        rw [div_le_one (by norm_num)]
        linarith
      nlinarith [abs_nonneg (fahrenheit c - 65)]
    have h2 := npClip01_le_one (inches m / (1/2))
    have h3 := npClip01_le_one (mph w / 25)
    nlinarith
  all_goals
    have hcond : (add_derived_features r).weather_condition =
        some (pdCut ((|fahrenheit c - 65| / 30) * (4/10)
          + npClip (inches m / (1/2)) 0 1 * (4/10)
          + npClip (mph w / 25) 0 1 * (2/10))
            [(3/10, "Good"), (6/10, "Moderate")] "Poor") := by
      simp only [add_derived_features]
      rw [hc, hm, hw]
      rfl
  · intro hs
    rw [hcond]
    simp only [pdCut, if_pos hs]
  · intro hs1 hs2
    rw [hcond]
    simp only [pdCut, if_neg (not_le.mpr hs1), if_pos hs2]
  · intro hs
    rw [hcond]
    simp only [pdCut, if_neg (not_le.mpr (lt_trans (by norm_num : (3:ℚ)/10 < 6/10) hs)),
      if_neg (not_le.mpr hs)]

/-- Concrete instantiation of C1_weather_impact_score_formula. -/
theorem C1_weather_impact_score_formula_witness :
    (({ date := 0, ridership := none, transfers := none,
        temperature_mean := some 15, precipitation := some 0,
        windspeed := some 0 } : MergedRow).temperature_mean = some 15)
    ∧ (∃ s : ℚ,
        (add_derived_features
          { date := 0, ridership := none, transfers := none,
            temperature_mean := some 15, precipitation := some 0,
            windspeed := some 0 }).weather_impact_score = some s
        ∧ s = (|fahrenheit 15 - 65| / 30) * (4/10)
              + npClip (inches 0 / (1/2)) 0 1 * (4/10)
              + npClip (mph 0 / 25) 0 1 * (2/10)
        ∧ 0 ≤ s
        ∧ (|fahrenheit 15 - 65| ≤ 30 → s ≤ 1)
        ∧ (s ≤ 3/10 → (add_derived_features
              { date := 0, ridership := none, transfers := none,
                temperature_mean := some 15, precipitation := some 0,
                windspeed := some 0 }).weather_condition = some "Good")
        ∧ (3/10 < s → s ≤ 6/10 → (add_derived_features
              { date := 0, ridership := none, transfers := none,
                temperature_mean := some 15, precipitation := some 0,
                windspeed := some 0 }).weather_condition = some "Moderate")
        ∧ (6/10 < s → (add_derived_features
              { date := 0, ridership := none, transfers := none,
                temperature_mean := some 15, precipitation := some 0,
                windspeed := some 0 }).weather_condition = some "Poor")) :=
  ⟨rfl, C1_weather_impact_score_formula _ 15 0 0 rfl rfl rfl⟩

/-- Python round-half-to-even on an exact rational (idealizing the float
round used at data_transformation.py line 128). -/
def pyRound (x : ℚ) : ℤ :=
  if x - ⌊x⌋ = 1/2 then (if 2 ∣ ⌊x⌋ then ⌊x⌋ else ⌊x⌋ + 1) else round x

/-- round(x, 2) of Python: round to two decimal places. -/
def round2 (x : ℚ) : ℚ := (pyRound (x * 100) : ℚ) / 100

/-- pandas drop_duplicates(keep=first) kernel: keep an element when it has
not been seen before. -/
def dropDupsFirstAux {α : Type} [DecidableEq α] (seen : List α) : List α → List α
  | [] => []
  | a :: rest =>
      if a ∈ seen then dropDupsFirstAux seen rest
      else a :: dropDupsFirstAux (a :: seen) rest

/-- pandas DataFrame.drop_duplicates(keep=first). -/
def dropDupsFirst {α : Type} [DecidableEq α] (l : List α) : List α :=
  dropDupsFirstAux [] l

/-- One row of a source table fed to validate_data_quality: a nullable date
plus the remaining cells. -/
structure SRow where
  date : Option ℤ
  vals : List (Option ℚ)
deriving DecidableEq

/-- The quality_report entries relevant to the claims (see
data_transformation.py lines 51-131); keys that the code only writes for
non-empty input are Options. -/
structure QualityReport where
  initial_rows : ℕ
  final_rows : Option ℕ
  quality_score : Option ℚ
  status : String
deriving DecidableEq

/-- Embedding of DataTransformer.validate_data_quality,
data_transformation.py lines 33-136: empty input returns unchanged with a
FAILED report; otherwise rows with null date are dropped (line 84), then
full-row duplicates are dropped keeping the first occurrence, but only when
at least one duplicate was counted (lines 93-97); the recorded
quality_score is round(final/initial*100, 2) (line 128) while the PASSED /
WARNING status compares the unrounded score with 90 (line 129).  Null
counting (line 75) and outlier counting (lines 111-120) only log and are
not data transformations, so they do not appear here. -/
def validate_data_quality (df : List SRow) : List SRow × QualityReport :=
  let initial_rows := df.length
  if df.isEmpty then
    (df, { initial_rows := initial_rows, final_rows := none,
           quality_score := none, status := "FAILED - Empty dataset" })
  else
    let df1 := df.filter (fun r => r.date.isSome)
    let duplicates := df1.length - (dropDupsFirst df1).length
    let df_cleaned := if 0 < duplicates then dropDupsFirst df1 else df1
    let final_rows := df_cleaned.length
    let quality_score : ℚ :=
      if 0 < initial_rows then (final_rows : ℚ) / (initial_rows : ℚ) * 100 else 0
    (df_cleaned,
     { initial_rows := initial_rows, final_rows := some final_rows,
       quality_score := some (round2 quality_score),
       status := if 90 ≤ quality_score then "PASSED" else "WARNING" })

lemma dropDupsFirstAux_sublist {α : Type} [DecidableEq α] :
    ∀ (l seen : List α), List.Sublist (dropDupsFirstAux seen l) l := by
  intro l
  induction l with
  | nil => intro seen; simp [dropDupsFirstAux]
  | cons a rest ih =>
      intro seen
      rw [dropDupsFirstAux]
      split_ifs
      · exact (ih seen).cons a
      · exact (ih (a :: seen)).cons₂ a

lemma dropDupsFirstAux_mem {α : Type} [DecidableEq α] :
    ∀ (l seen : List α) (b : α),
      b ∈ dropDupsFirstAux seen l ↔ b ∈ l ∧ b ∉ seen := by
  intro l
  induction l with
  | nil => intro seen b; simp [dropDupsFirstAux]
  | cons a rest ih =>
      intro seen b
      rw [dropDupsFirstAux]
      split_ifs with ha
      · rw [ih]
        simp only [List.mem_cons]
        constructor
        · rintro ⟨hb, hs⟩; exact ⟨Or.inr hb, hs⟩
        · rintro ⟨hb | hb, hs⟩
          · exact absurd (hb ▸ ha) hs
          · exact ⟨hb, hs⟩
      · simp only [List.mem_cons, ih, List.mem_cons]
        constructor
        · rintro (rfl | ⟨hb, hs⟩)
          · exact ⟨Or.inl rfl, ha⟩
          · exact ⟨Or.inr hb, fun h => hs (Or.inr h)⟩
        · rintro ⟨rfl | hb, hs⟩
          · exact Or.inl rfl
          · by_cases hba : b = a
            · exact Or.inl hba
            · exact Or.inr ⟨hb, fun h => (by
                rcases h with h | h
                · exact hba h
                · exact hs h : False)⟩

lemma dropDupsFirstAux_nodup {α : Type} [DecidableEq α] :
    ∀ (l seen : List α), (dropDupsFirstAux seen l).Nodup := by
  intro l
  induction l with
  | nil => intro seen; simp [dropDupsFirstAux]
  | cons a rest ih =>
      intro seen
      rw [dropDupsFirstAux]
      split_ifs with ha
      · exact ih seen
      · refine List.Nodup.cons ?_ (ih (a :: seen))
        intro hmem
        exact ((dropDupsFirstAux_mem rest (a :: seen) a).mp hmem).2 (List.mem_cons_self a seen)

lemma dropDupsFirst_sublist {α : Type} [DecidableEq α] (l : List α) :
    List.Sublist (dropDupsFirst l) l := dropDupsFirstAux_sublist l []

lemma dropDupsFirst_mem {α : Type} [DecidableEq α] (l : List α) (b : α) :
    b ∈ dropDupsFirst l ↔ b ∈ l := by
  rw [dropDupsFirst, dropDupsFirstAux_mem]
  simp

lemma dropDupsFirst_nodup {α : Type} [DecidableEq α] (l : List α) :
    (dropDupsFirst l).Nodup := dropDupsFirstAux_nodup l []

/-- The cleaned table returned by validate_data_quality is always the
null-date filter followed by first-kept deduplication (the source's guard
on the duplicate count makes no difference). -/
lemma dropDupsFirst_guard {α : Type} [DecidableEq α] (l : List α) :
    (if 0 < l.length - (dropDupsFirst l).length then dropDupsFirst l else l) =
      dropDupsFirst l := by
  by_cases h : 0 < l.length - (dropDupsFirst l).length
  · rw [if_pos h]
  · rw [if_neg h]
    have hsub := dropDupsFirst_sublist l
    have hlen : l.length ≤ (dropDupsFirst l).length := by omega
    exact (List.Sublist.eq_of_length hsub (le_antisymm hsub.length_le hlen)).symm

lemma validate_data_quality_fst (df : List SRow) :
    (validate_data_quality df).1 =
      dropDupsFirst (df.filter (fun r => r.date.isSome)) := by
  by_cases hempty : df.isEmpty
  · rw [validate_data_quality, if_pos hempty, List.isEmpty_iff.mp hempty]
    rfl
  · rw [validate_data_quality, if_neg hempty]
    show (if 0 < (df.filter (fun r => r.date.isSome)).length -
            (dropDupsFirst (df.filter (fun r => r.date.isSome))).length
          then dropDupsFirst (df.filter (fun r => r.date.isSome))
          else df.filter (fun r => r.date.isSome)) =
        dropDupsFirst (df.filter (fun r => r.date.isSome))
    by_cases hdup : 0 < (df.filter (fun r => r.date.isSome)).length -
        (dropDupsFirst (df.filter (fun r => r.date.isSome))).length
    · rw [if_pos hdup]
    · rw [if_neg hdup]
      have hsub := dropDupsFirst_sublist (df.filter (fun r => r.date.isSome))
      have hlen : (df.filter (fun r => r.date.isSome)).length ≤
          (dropDupsFirst (df.filter (fun r => r.date.isSome))).length := by
        omega
      exact (List.Sublist.eq_of_length hsub
        (le_antisymm hsub.length_le hlen)).symm

/-- Claim C10: validation only drops whole rows, never edits a surviving
cell or reorders: the cleaned table is exactly the subsequence of the
input obtained by removing null-date rows and later exact full-row
duplicates (first occurrence kept). -/
theorem C10_validate_only_removes_rows (df : List SRow) (hne : df ≠ []) :
    (validate_data_quality df).1 =
        dropDupsFirst (df.filter (fun r => r.date.isSome))
    ∧ List.Sublist (validate_data_quality df).1 df
    ∧ (validate_data_quality df).1.Nodup
    ∧ (∀ a : SRow, a ∈ (validate_data_quality df).1 ↔ a ∈ df ∧ a.date.isSome) := by
  have h1 := validate_data_quality_fst df
  refine ⟨h1, ?_, ?_, ?_⟩
  · rw [h1]
    exact (dropDupsFirst_sublist _).trans (List.filter_sublist df)
  · rw [h1]
    exact dropDupsFirst_nodup _
  · intro a
    rw [h1, dropDupsFirst_mem, List.mem_filter]

/-- Claim C2 (amended): the RECORDED quality_score is
round(100*final_rows/initial_rows, 2), i.e. the exact ratio rounded to two
decimal places (so it differs from 100*final_rows/initial_rows whenever
that ratio has more than two decimals); initial_rows is always the row
count of the original input; status is PASSED iff the UNROUNDED score is
at least 90, otherwise WARNING. -/
theorem C2_quality_score_recorded (df : List SRow) (hne : df ≠ []) :
    (validate_data_quality df).2.initial_rows = df.length
    ∧ (validate_data_quality df).2.final_rows =
        some (validate_data_quality df).1.length
    ∧ (validate_data_quality df).2.quality_score =
        some (round2 (((validate_data_quality df).1.length : ℚ) /
          (df.length : ℚ) * 100))
    ∧ ((validate_data_quality df).2.status = "PASSED" ↔
        (90:ℚ) ≤ ((validate_data_quality df).1.length : ℚ) /
          (df.length : ℚ) * 100)
    ∧ ((validate_data_quality df).2.status = "WARNING" ↔
        ¬ ((90:ℚ) ≤ ((validate_data_quality df).1.length : ℚ) /
          (df.length : ℚ) * 100)) := by
  obtain ⟨a, rest, rfl⟩ := List.exists_cons_of_ne_nil hne
  have hg := dropDupsFirst_guard ((a :: rest).filter (fun r => r.date.isSome))
  rw [validate_data_quality_fst]
  simp only [validate_data_quality, List.isEmpty_cons, Bool.false_eq_true,
    if_false, hg, List.length_cons, Nat.zero_lt_succ, if_true]
  refine ⟨by trivial, by trivial, by trivial, ?_, ?_⟩
  · split_ifs with hq
    · exact iff_of_true rfl hq
    · exact iff_of_false (by decide) hq
  · split_ifs with hq
    · exact iff_of_false (by decide) (fun h => h hq)
    · exact iff_of_true rfl hq

/-- Concrete instantiation of C2_quality_score_recorded. -/
theorem C2_quality_score_recorded_witness :
    (([⟨some 1, []⟩, ⟨none, []⟩, ⟨some 2, []⟩] : List SRow) ≠ [])
    ∧ (validate_data_quality [⟨some 1, []⟩, ⟨none, []⟩, ⟨some 2, []⟩]).2.initial_rows =
        ([⟨some 1, []⟩, ⟨none, []⟩, ⟨some 2, []⟩] : List SRow).length :=
  ⟨by simp,
   (C2_quality_score_recorded [⟨some 1, []⟩, ⟨none, []⟩, ⟨some 2, []⟩] (by simp)).1⟩

lemma round2_val_200_3 : round2 ((200:ℚ)/3) = 6667/100 := by
  have hx : ((200:ℚ)/3) * 100 = 20000/3 := by norm_num
  have hfloor : ⌊(20000/3 : ℚ)⌋ = (6666 : ℤ) := by
    rw [Int.floor_eq_iff]
    norm_num
  have hround : round ((20000:ℚ)/3) = (6667 : ℤ) := by
    rw [round_eq]
    have : (20000:ℚ)/3 + 1/2 = 40003/6 := by norm_num
    rw [this, Int.floor_eq_iff]
    norm_num
  rw [round2, hx, pyRound, hfloor]
  rw [if_neg (by norm_num), hround]
  norm_num

/-- Claim C2 counterexample: on a 3-row input with one null date the code
records quality_score 66.67 (the rounded value), not the exact
100*2/3 = 66.666...; so the recorded score is not exactly
100*final_rows/initial_rows. -/
theorem C2_quality_score_counterexample :
    (validate_data_quality
        [⟨some 1, []⟩, ⟨none, []⟩, ⟨some 2, []⟩]).2.initial_rows = 3
    ∧ (validate_data_quality
        [⟨some 1, []⟩, ⟨none, []⟩, ⟨some 2, []⟩]).2.final_rows = some 2
    ∧ (validate_data_quality
        [⟨some 1, []⟩, ⟨none, []⟩, ⟨some 2, []⟩]).2.quality_score =
          some (6667/100)
    ∧ (6667/100 : ℚ) ≠ 100 * 2 / 3 := by
  refine ⟨rfl, rfl, ?_, by norm_num⟩
  have h1 : (validate_data_quality
      [⟨some 1, []⟩, ⟨none, []⟩, ⟨some 2, []⟩]).2.quality_score =
        some (round2 (((2:ℕ):ℚ) / ((3:ℕ):ℚ) * 100)) := rfl
  rw [h1,
    show (((2:ℕ):ℚ) / ((3:ℕ):ℚ) * 100) = (200:ℚ)/3 from by norm_num,
    round2_val_200_3]

/-- Concrete instantiation of C10_validate_only_removes_rows. -/
theorem C10_validate_only_removes_rows_witness :
    (([⟨some 1, []⟩, ⟨none, []⟩, ⟨some 1, []⟩] : List SRow) ≠ [])
    ∧ List.Sublist
        (validate_data_quality [⟨some 1, []⟩, ⟨none, []⟩, ⟨some 1, []⟩]).1
        [⟨some 1, []⟩, ⟨none, []⟩, ⟨some 1, []⟩] :=
  ⟨by simp,
   (C10_validate_only_removes_rows [⟨some 1, []⟩, ⟨none, []⟩, ⟨some 1, []⟩]
      (by simp)).2.1⟩

/-- A timestamp: calendar day plus time of day.  The pandas .dt.date
truncation at data_transformation.py lines 263-264 keeps only the day. -/
structure DateTime where
  day : ℤ
  timeOfDay : ℤ
deriving DecidableEq

/-- pandas inner merge on the key column (first component),
data_transformation.py lines 267-273: for each left row in order, all
right rows carrying an equal key. -/
def merge_inner {γ δ : Type} (A : List (ℤ × γ)) (B : List (ℤ × δ)) :
    List (ℤ × γ × δ) :=
  A.flatMap (fun a => (B.filter (fun b => b.1 = a.1)).map (fun b => (a.1, a.2, b.2)))

/-- The merge step of DataTransformer.transform_and_merge
(data_transformation.py lines 262-273) on already-cleaned tables: truncate
both date columns to the calendar day, then inner-join on date. -/
def transform_merge {γ δ : Type} (rid : List (DateTime × γ))
    (wea : List (DateTime × δ)) : List (ℤ × γ × δ) :=
  merge_inner (rid.map (fun r => (r.1.day, r.2))) (wea.map (fun w => (w.1.day, w.2)))

lemma merge_inner_dates {γ δ : Type} (A : List (ℤ × γ)) (B : List (ℤ × δ)) :
    ((merge_inner A B).map Prod.fst).toFinset =
      (A.map Prod.fst).toFinset ∩ (B.map Prod.fst).toFinset := by
  ext d
  simp only [List.mem_toFinset, List.mem_map, merge_inner, List.mem_flatMap,
    List.mem_filter, Finset.mem_inter, decide_eq_true_eq]
  constructor
  · rintro ⟨p, ⟨a, ha, b, ⟨hb, hkey⟩, rfl⟩, rfl⟩
    exact ⟨⟨a, ha, rfl⟩, ⟨b, hb, hkey⟩⟩
  · rintro ⟨⟨a, ha, rfl⟩, ⟨b, hb, hkey⟩⟩
    exact ⟨(a.1, a.2, b.2), ⟨a, ha, b, ⟨hb, hkey⟩, rfl⟩, rfl⟩

lemma beq_of_decEq {α : Type} [inst : DecidableEq α] (p q : α) :
    (@BEq.beq _ (@instBEqOfDecidableEq _ inst) p q) = decide (p = q) := rfl

lemma count_merge_block {γ δ : Type} [DecidableEq γ] [DecidableEq δ]
    (a1 : ℤ) (a2 : γ) (d : ℤ) (x : γ) (y : δ) :
    ∀ B : List (ℤ × δ),
      @List.count _ (@instBEqOfDecidableEq _ inferInstance) (d, x, y)
          ((B.filter (fun b => b.1 = a1)).map (fun b => (a1, a2, b.2)))
        = if a1 = d ∧ a2 = x
          then @List.count _ (@instBEqOfDecidableEq _ inferInstance) (d, y) B
          else 0 := by
  have ccons3 := fun (p q : ℤ × γ × δ) (l : List (ℤ × γ × δ)) =>
    @List.count_cons _ (@instBEqOfDecidableEq (ℤ × γ × δ) inferInstance) p q l
  have ccons2 := fun (p q : ℤ × δ) (l : List (ℤ × δ)) =>
    @List.count_cons _ (@instBEqOfDecidableEq (ℤ × δ) inferInstance) p q l
  intro B
  induction B with
  | nil => simp
  | cons b B ih =>
      obtain ⟨b1, b2⟩ := b
      rw [List.filter_cons]
      by_cases hb : b1 = a1
      · rw [if_pos (by simpa using hb), List.map_cons, ccons3, ih, ccons2]
        simp only [beq_of_decEq, decide_eq_true_eq, Prod.mk.injEq]
        by_cases h1 : a1 = d <;> by_cases h2 : a2 = x <;> by_cases h3 : b2 = y <;>
          simp_all
      · rw [if_neg (by simpa using hb), ih]
        by_cases hax : a1 = d ∧ a2 = x
        · have hneq : ¬ ((b1, b2) = (d, y)) := by
            intro h
            exact hb ((congrArg Prod.fst h).trans hax.1.symm)
          rw [if_pos hax, if_pos hax, ccons2, beq_of_decEq,
            if_neg (by simpa using hneq), Nat.add_zero]
        · rw [if_neg hax, if_neg hax]

lemma count_merge_inner {γ δ : Type} [DecidableEq γ] [DecidableEq δ]
    (A : List (ℤ × γ)) (B : List (ℤ × δ)) (d : ℤ) (x : γ) (y : δ) :
    @List.count _ (@instBEqOfDecidableEq _ inferInstance) (d, x, y) (merge_inner A B) =
      @List.count _ (@instBEqOfDecidableEq _ inferInstance) (d, x) A *
        @List.count _ (@instBEqOfDecidableEq _ inferInstance) (d, y) B := by
  have capp := fun (p : ℤ × γ × δ) (l1 l2 : List (ℤ × γ × δ)) =>
    @List.count_append _ (@instBEqOfDecidableEq (ℤ × γ × δ) inferInstance) p l1 l2
  have ccons := fun (p q : ℤ × γ) (l : List (ℤ × γ)) =>
    @List.count_cons _ (@instBEqOfDecidableEq (ℤ × γ) inferInstance) p q l
  induction A with
  | nil => simp [merge_inner]
  | cons a A ih =>
      obtain ⟨a1, a2⟩ := a
      show @List.count _ (@instBEqOfDecidableEq (ℤ × γ × δ) inferInstance) (d, x, y)
          (((B.filter (fun b => b.1 = a1)).map (fun b => (a1, a2, b.2)))
            ++ merge_inner A B)
        = @List.count _ (@instBEqOfDecidableEq (ℤ × γ) inferInstance) (d, x)
            ((a1, a2) :: A) *
          @List.count _ (@instBEqOfDecidableEq (ℤ × δ) inferInstance) (d, y) B
      rw [capp, ih, count_merge_block a1 a2 d x y B, ccons]
      simp only [beq_of_decEq, decide_eq_true_eq, Prod.mk.injEq]
      by_cases h1 : a1 = d <;> by_cases h2 : a2 = x <;> simp_all <;> ring

lemma swap23_injective {γ δ : Type} :
    Function.Injective (fun p : ℤ × δ × γ => (p.1, p.2.2, p.2.1)) := by
  rintro ⟨d, y, x⟩ ⟨e, v, u⟩ h
  simp only [Prod.mk.injEq] at h
  obtain ⟨h1, h2, h3⟩ := h
  simp [h1, h2, h3]

lemma merge_inner_comm {γ δ : Type} [DecidableEq γ] [DecidableEq δ]
    (A : List (ℤ × γ)) (B : List (ℤ × δ)) :
    List.Perm (merge_inner A B)
      ((merge_inner B A).map (fun p => (p.1, p.2.2, p.2.1))) := by
  rw [List.perm_iff_count]
  rintro ⟨d, x, y⟩
  rw [count_merge_inner]
  rw [show ((d, x, y) : ℤ × γ × δ) =
    ((fun p : ℤ × δ × γ => (p.1, p.2.2, p.2.1)) (d, y, x)) from rfl]
  rw [List.count_map_of_injective (merge_inner B A)
    (fun p : ℤ × δ × γ => (p.1, p.2.2, p.2.1)) swap23_injective (d, y, x)]
  rw [count_merge_inner]
  ring

/-- Ridership rows of the worked example: days 1, 2, 3 at assorted hours. -/
def exRidership : List (DateTime × ℤ) :=
  [(⟨1, 8⟩, 100), (⟨2, 9⟩, 200), (⟨3, 23⟩, 300)]

/-- Weather rows of the worked example: days 2, 3, 4 at midnight. -/
def exWeather : List (DateTime × ℤ) :=
  [(⟨2, 0⟩, 55), (⟨3, 0⟩, 60), (⟨4, 0⟩, 65)]

/-- Claim C5: transform_and_merge truncates dates to day granularity and
inner-joins, so merged dates = intersection of the input date sets (dates
on one side only are dropped), content is commutative in the two tables,
the join is insensitive to time-of-day, and the {1,2,3} vs {2,3,4} example
merges to exactly {2,3}. -/
theorem C5_merge_inner_join {γ δ : Type} [DecidableEq γ] [DecidableEq δ]
    (rid : List (DateTime × γ)) (wea : List (DateTime × δ))
    (hr : rid ≠ []) (hw : wea ≠ []) (f : DateTime → DateTime)
    (htod : ∀ x : DateTime, (f x).day = x.day) :
    ((transform_merge rid wea).map Prod.fst).toFinset =
        (rid.map (fun r => r.1.day)).toFinset ∩ (wea.map (fun w => w.1.day)).toFinset
    ∧ List.Perm (transform_merge rid wea)
        ((transform_merge wea rid).map (fun p => (p.1, p.2.2, p.2.1)))
    ∧ transform_merge (rid.map (fun r => (f r.1, r.2))) wea = transform_merge rid wea
    ∧ ((transform_merge exRidership exWeather).map Prod.fst).toFinset =
        ({2, 3} : Finset ℤ) := by
  refine ⟨?_, merge_inner_comm _ _, ?_, by decide⟩
  · rw [transform_merge, merge_inner_dates, List.map_map, List.map_map]
    rfl
  · rw [transform_merge, transform_merge, List.map_map]
    congr 1
    apply List.map_congr_left
    intro r _
    simp [htod r.1]

/-- Concrete instantiation of C5_merge_inner_join. -/
theorem C5_merge_inner_join_witness :
    (exRidership ≠ [])
    ∧ (exWeather ≠ [])
    ∧ (∀ x : DateTime, (id x).day = x.day)
    ∧ ((transform_merge exRidership exWeather).map Prod.fst).toFinset =
        ({2, 3} : Finset ℤ) :=
  ⟨by simp [exRidership], by simp [exWeather], fun x => rfl,
   (C5_merge_inner_join exRidership exWeather (by simp [exRidership])
      (by simp [exWeather]) id (fun x => rfl)).2.2.2⟩

/-- One row of the merged table as seen by the rolling-average step
(data_transformation.py lines 286-289): its date and its ridership value. -/
structure MRow where
  date : ℤ
  ridership : ℚ
deriving DecidableEq

/-- merged_df.sort_values('date'), data_transformation.py line 287. -/
def sort_values_date (rows : List MRow) : List MRow :=
  rows.mergeSort (fun a b => a.date ≤ b.date)

/-- pandas Series.rolling(window=w, min_periods=1).mean(): at index i, the
mean of the trailing min(w, i+1) values ending at i. -/
def rollingMean (w : ℕ) (xs : List ℚ) : List ℚ :=
  (List.range xs.length).map (fun i =>
    ((xs.take (i+1)).drop (i + 1 - w)).sum / ((xs.take (i+1)).drop (i + 1 - w)).length)

/-- The ridership_7day_avg column, data_transformation.py line 288. -/
def ridership_7day_avg (rows : List MRow) : List ℚ :=
  rollingMean 7 ((sort_values_date rows).map (fun r => r.ridership))

/-- The ridership_30day_avg column, data_transformation.py line 289. -/
def ridership_30day_avg (rows : List MRow) : List ℚ :=
  rollingMean 30 ((sort_values_date rows).map (fun r => r.ridership))

lemma rollingMean_length (w : ℕ) (xs : List ℚ) :
    (rollingMean w xs).length = xs.length := by
  simp [rollingMean]

lemma rollingMean_getD (w : ℕ) (xs : List ℚ) (i : ℕ) (h : i < xs.length) :
    (rollingMean w xs).getD i 0 =
      ((xs.take (i+1)).drop (i + 1 - w)).sum /
        ((xs.take (i+1)).drop (i + 1 - w)).length := by
  rw [rollingMean, List.getD_eq_getElem _ _ (by simpa using h),
    List.getElem_map, List.getElem_range]

/-- Claim C6: before the rolling step the merged table is sorted ascending
by date; ridership_7day_avg is the trailing mean over a 7-row window with
min_periods 1 (first row: its own value; 10th row: mean of rows 4-10), and
ridership_30day_avg the analogous 30-row trailing mean (10th row: mean of
all first ten rows). -/
theorem C6_rolling_averages (rows : List MRow) (h10 : 10 ≤ rows.length) :
    List.Sorted (fun a b : MRow => a.date ≤ b.date) (sort_values_date rows)
    ∧ (sort_values_date rows).length = rows.length
    ∧ (ridership_7day_avg rows).length = rows.length
    ∧ (ridership_30day_avg rows).length = rows.length
    ∧ (ridership_7day_avg rows).getD 0 0 =
        ((sort_values_date rows).map (fun r => r.ridership)).getD 0 0
    ∧ (ridership_7day_avg rows).getD 9 0 =
        (((sort_values_date rows).map (fun r => r.ridership)).getD 3 0
          + ((sort_values_date rows).map (fun r => r.ridership)).getD 4 0
          + ((sort_values_date rows).map (fun r => r.ridership)).getD 5 0
          + ((sort_values_date rows).map (fun r => r.ridership)).getD 6 0
          + ((sort_values_date rows).map (fun r => r.ridership)).getD 7 0
          + ((sort_values_date rows).map (fun r => r.ridership)).getD 8 0
          + ((sort_values_date rows).map (fun r => r.ridership)).getD 9 0) / 7
    ∧ (ridership_30day_avg rows).getD 0 0 =
        ((sort_values_date rows).map (fun r => r.ridership)).getD 0 0
    ∧ (ridership_30day_avg rows).getD 9 0 =
        (((sort_values_date rows).map (fun r => r.ridership)).getD 0 0
          + ((sort_values_date rows).map (fun r => r.ridership)).getD 1 0
          + ((sort_values_date rows).map (fun r => r.ridership)).getD 2 0
          + ((sort_values_date rows).map (fun r => r.ridership)).getD 3 0
          + ((sort_values_date rows).map (fun r => r.ridership)).getD 4 0
          + ((sort_values_date rows).map (fun r => r.ridership)).getD 5 0
          + ((sort_values_date rows).map (fun r => r.ridership)).getD 6 0
          + ((sort_values_date rows).map (fun r => r.ridership)).getD 7 0
          + ((sort_values_date rows).map (fun r => r.ridership)).getD 8 0
          + ((sort_values_date rows).map (fun r => r.ridership)).getD 9 0) / 10 := by
  have htrans : ∀ a b c : MRow, (decide (a.date ≤ b.date)) = true →
      (decide (b.date ≤ c.date)) = true → (decide (a.date ≤ c.date)) = true := by
    intro a b c hab hbc
    simp only [decide_eq_true_eq] at *
    exact le_trans hab hbc
  have htotal : ∀ a b : MRow,
      ((decide (a.date ≤ b.date)) || (decide (b.date ≤ a.date))) = true := by
    intro a b
    simp only [Bool.or_eq_true, decide_eq_true_eq]
    exact le_total a.date b.date
  have hsorted : List.Sorted (fun a b : MRow => a.date ≤ b.date)
      (sort_values_date rows) :=
    (@List.sorted_mergeSort MRow (fun a b => decide (a.date ≤ b.date))
      htrans htotal rows).imp (fun hab => by simpa using hab)
  have hslen : (sort_values_date rows).length = rows.length := by
    rw [sort_values_date, List.length_mergeSort]
  simp only [ridership_7day_avg, ridership_30day_avg]
  set xs := (sort_values_date rows).map (fun r => r.ridership) with hxs
  have hxslen : xs.length = rows.length := by
    rw [hxs, List.length_map, sort_values_date, List.length_mergeSort]
  have hlen10 : 10 ≤ xs.length := by omega
  rcases xs with _ | ⟨x0, xs⟩
  · simp at hlen10
  rcases xs with _ | ⟨x1, xs⟩
  · simp at hlen10
  rcases xs with _ | ⟨x2, xs⟩
  · simp at hlen10
  rcases xs with _ | ⟨x3, xs⟩
  · simp at hlen10
  rcases xs with _ | ⟨x4, xs⟩
  · simp at hlen10
  rcases xs with _ | ⟨x5, xs⟩
  · simp at hlen10
  rcases xs with _ | ⟨x6, xs⟩
  · simp at hlen10
  rcases xs with _ | ⟨x7, xs⟩
  · simp at hlen10
  rcases xs with _ | ⟨x8, xs⟩
  · simp at hlen10
  rcases xs with _ | ⟨x9, tl⟩
  · simp at hlen10
  refine ⟨hsorted, hslen, ?_, ?_, ?_, ?_, ?_, ?_⟩
  · rw [rollingMean_length]
    exact hxslen
  · rw [rollingMean_length]
    exact hxslen
  · rw [rollingMean_getD 7 _ 0 (by simp)]
    simp
  · rw [rollingMean_getD 7 _ 9 (by simp)]
    simp <;> ring_nf
  · rw [rollingMean_getD 30 _ 0 (by simp)]
    simp
  · rw [rollingMean_getD 30 _ 9 (by simp)]
    simp <;> ring_nf

/-- Ten concrete merged rows, unsorted on purpose. -/
def exMergedRows : List MRow :=
  [⟨3, 30⟩, ⟨1, 10⟩, ⟨2, 20⟩, ⟨4, 40⟩, ⟨5, 50⟩,
   ⟨6, 60⟩, ⟨7, 70⟩, ⟨8, 80⟩, ⟨9, 90⟩, ⟨10, 100⟩]

/-- Concrete instantiation of C6_rolling_averages. -/
theorem C6_rolling_averages_witness :
    10 ≤ exMergedRows.length
    ∧ List.Sorted (fun a b : MRow => a.date ≤ b.date)
        (sort_values_date exMergedRows) :=
  ⟨by decide, (C6_rolling_averages exMergedRows (by decide)).1⟩

/-- The weekly-window accumulation loop of DataExtractor.fetch_ridership_data,
data_extraction.py lines 73-111, driven by the outcome each window's
resilient fetch would produce (ok batch, or the exception finally raised).
An ok batch is appended (line 99; appending an empty batch is a no-op, line
98), then the running total is checked against max_records and truncated
with early exit (lines 102-105); an exception is caught, logged and skipped
(lines 109-111), so it changes nothing. -/
def fetchWindows {α : Type} (maxRecords : ℕ) :
    List (Except String (List α)) → List α → List α
  | [], acc => acc
  | Except.error _ :: rest, acc => fetchWindows maxRecords rest acc
  | Except.ok batch :: rest, acc =>
      if maxRecords ≤ (acc ++ batch).length then (acc ++ batch).take maxRecords
      else fetchWindows maxRecords rest (acc ++ batch)

/-- DataExtractor.fetch_ridership_data, record-accumulation behavior
(lines 68-115): run the window loop from an empty accumulator; if nothing
was collected the function returns an empty table rather than raising
(lines 113-115). -/
def fetch_ridership_data {α : Type} (maxRecords : ℕ)
    (windows : List (Except String (List α))) : List α :=
  fetchWindows maxRecords windows []

lemma fetchWindows_skip_error {α : Type} (maxRecords : ℕ) (e : String) :
    ∀ (pre post : List (Except String (List α))) (acc : List α),
      fetchWindows maxRecords (pre ++ Except.error e :: post) acc =
        fetchWindows maxRecords (pre ++ post) acc := by
  intro pre
  induction pre with
  | nil => intro post acc; rfl
  | cons w pre ih =>
      intro post acc
      cases w with
      | error msg =>
          simp only [List.cons_append, fetchWindows]
          exact ih post acc
      | ok batch =>
          simp only [List.cons_append, fetchWindows]
          split_ifs with h
          · rfl
          · exact ih post (acc ++ batch)

lemma fetchWindows_all_fail {α : Type} (maxRecords : ℕ) :
    ∀ windows : List (Except String (List α)),
      (∀ w ∈ windows, w = Except.ok [] ∨ ∃ msg, w = Except.error msg) →
      fetchWindows maxRecords windows [] = [] := by
  intro windows
  induction windows with
  | nil => intro _; rfl
  | cons w rest ih =>
      intro h
      rcases h w (List.mem_cons_self w rest) with hok | ⟨msg, hmsg⟩
      · subst hok
        simp only [fetchWindows, List.nil_append]
        split_ifs with hm
        · simp
        · exact ih (fun v hv => h v (List.mem_cons_of_mem _ hv))
      · subst hmsg
        simp only [fetchWindows]
        exact ih (fun v hv => h v (List.mem_cons_of_mem _ hv))

/-- Claim C7: a weekly window whose fetch still fails after all retries is
skipped and extraction continues with the following windows, leaving the
result exactly as if the failed window had not been scheduled; and when
every window fails or returns no data, fetch_ridership_data returns an
empty table instead of raising. -/
theorem C7_fetch_ridership_resilient {α : Type} (maxRecords : ℕ) (e : String)
    (pre post windows : List (Except String (List α)))
    (hfail : ∀ w ∈ windows, w = Except.ok [] ∨ ∃ msg, w = Except.error msg) :
    fetch_ridership_data maxRecords (pre ++ Except.error e :: post) =
        fetch_ridership_data maxRecords (pre ++ post)
    ∧ fetch_ridership_data maxRecords windows = [] :=
  ⟨fetchWindows_skip_error maxRecords e pre post [],
   fetchWindows_all_fail maxRecords windows hfail⟩

/-- Concrete instantiation of C7_fetch_ridership_resilient. -/
theorem C7_fetch_ridership_resilient_witness :
    (∀ w ∈ ([Except.error "boom", Except.ok []] :
        List (Except String (List ℕ))), w = Except.ok [] ∨ ∃ msg, w = Except.error msg)
    ∧ fetch_ridership_data 5
        ([Except.ok [1, 2]] ++ Except.error "down" :: [Except.ok [3]]) =
        fetch_ridership_data 5 ([Except.ok [1, 2]] ++ [Except.ok [3]])
    ∧ fetch_ridership_data 5
        ([Except.error "boom", Except.ok []] : List (Except String (List ℕ))) = [] := by
  have hfail : ∀ w ∈ ([Except.error "boom", Except.ok []] :
      List (Except String (List ℕ))), w = Except.ok [] ∨ ∃ msg, w = Except.error msg := by
    intro w hw
    rcases List.mem_cons.mp hw with rfl | hw2
    · exact Or.inr ⟨"boom", rfl⟩
    · rcases List.mem_cons.mp hw2 with rfl | hw3
      · exact Or.inl rfl
      · exact absurd hw3 (List.not_mem_nil w)
  obtain ⟨h1, h2⟩ := C7_fetch_ridership_resilient 5 "down"
    [Except.ok [1, 2]] [Except.ok [3]]
    ([Except.error "boom", Except.ok []] : List (Except String (List ℕ))) hfail
  exact ⟨hfail, h1, h2⟩

/-- Outcome of one fetch_with_retry call: the value returned or exception
propagated, the sleep durations performed (in order), and how many times
the thunk was invoked. -/
structure RetryResult (E α : Type) where
  result : Except E α
  sleeps : List ℚ
  calls : ℕ

/-- The retry loop of DataExtractor.fetch_with_retry, data_extraction.py
lines 38-46, starting at attempt index i with ceiling n and base delay d;
the thunk is modelled by the outcome f of each numbered invocation.  A
successful attempt returns at once (line 40); a failed attempt with
attempt+1 < n sleeps d*(attempt+1) and retries (lines 43-44); the last
allowed attempt re-raises its exception (line 46). -/
def fetch_with_retry_go {E α : Type} (f : ℕ → Except E α) (d : ℚ) (n : ℕ)
    (i : ℕ) : RetryResult E α :=
  match f i with
  | Except.ok v => ⟨Except.ok v, [], 1⟩
  | Except.error e =>
      if h : i + 1 < n then
        let r := fetch_with_retry_go f d n (i + 1)
        ⟨r.result, d * (i + 1) :: r.sleeps, r.calls + 1⟩
      else ⟨Except.error e, [], 1⟩
termination_by n - i
decreasing_by omega

/-- Python `max_retries = max_retries or self.max_retries`
(data_extraction.py line 35): None and 0 both fall back to the default 3. -/
def resolve_max_retries : Option ℕ → ℕ
  | none => 3
  | some m => if m = 0 then 3 else m

/-- Python `delay = delay or self.retry_delay` (line 36): None and 0 both
fall back to the default 2. -/
def resolve_delay : Option ℚ → ℚ
  | none => 2
  | some x => if x = 0 then 2 else x

/-- DataExtractor.fetch_with_retry, data_extraction.py lines 34-46. -/
def fetch_with_retry {E α : Type} (f : ℕ → Except E α) (mr : Option ℕ)
    (dl : Option ℚ) : RetryResult E α :=
  fetch_with_retry_go f (resolve_delay dl) (resolve_max_retries mr) 0

lemma resolve_max_retries_pos (mr : Option ℕ) : 0 < resolve_max_retries mr := by
  rcases mr with _ | m
  · norm_num [resolve_max_retries]
  · rw [resolve_max_retries]
    split_ifs with h
    · norm_num
    · omega

lemma fetch_with_retry_go_all_fail {E α : Type} (f : ℕ → Except E α) (d : ℚ)
    (n : ℕ) (e : E) (hlast : f (n - 1) = Except.error e) :
    ∀ (k i : ℕ), n - i = k → i < n →
      (∀ j, i ≤ j → j < n → ∃ e2, f j = Except.error e2) →
      fetch_with_retry_go f d n i =
        ⟨Except.error e,
         (List.range' (i + 1) (n - 1 - i)).map (fun k : ℕ => d * (k : ℚ)),
         n - i⟩ := by
  intro k
  induction k with
  | zero => intro i hk hi _; omega
  | succ k ih =>
      intro i hk hi hfail
      obtain ⟨e2, he2⟩ := hfail i le_rfl hi
      rw [fetch_with_retry_go, he2]
      dsimp only
      by_cases hnext : i + 1 < n
      · rw [dif_pos hnext]
        simp only [ih (i + 1) (by omega) hnext
          (fun j hj1 hj2 => hfail j (by omega) hj2)]
        have hrange : (i + 1) :: List.range' (i + 1 + 1) (n - 1 - (i + 1)) =
            List.range' (i + 1) (n - 1 - i) := by
          have hn : n - 1 - i = (n - 1 - (i + 1)) + 1 := by omega
          rw [hn, List.range'_succ]
        simp only [RetryResult.mk.injEq]
        refine ⟨by trivial, ?_, by omega⟩
        rw [← hrange]
        simp only [List.map_cons]
        have hcast : d * ((i : ℚ) + 1) = d * (((i + 1 : ℕ) : ℚ)) := by
          push_cast
          ring
        rw [hcast]
      · rw [dif_neg hnext]
        have hieq : i = n - 1 := by omega
        subst hieq
        rw [hlast] at he2
        have he : e2 = e := by
          injection he2.symm
        subst he
        have hz : n - 1 - (n - 1) = 0 := by omega
        rw [hz]
        have hone : n - (n - 1) = 1 := by omega
        rw [List.range', List.map_nil, hone]

lemma fetch_with_retry_go_success {E α : Type} (f : ℕ → Except E α) (d : ℚ)
    (n : ℕ) (m : ℕ) (v : α) (hm : m < n) (hok : f m = Except.ok v) :
    ∀ (k i : ℕ), n - i = k → i ≤ m →
      (∀ j, i ≤ j → j < m → ∃ e2, f j = Except.error e2) →
      fetch_with_retry_go f d n i =
        ⟨Except.ok v,
         (List.range' (i + 1) (m - i)).map (fun k : ℕ => d * (k : ℚ)),
         m - i + 1⟩ := by
  intro k
  induction k with
  | zero => intro i hk hi _; omega
  | succ k ih =>
      intro i hk him hfail
      by_cases heq : i = m
      · rw [heq]
        rw [fetch_with_retry_go, hok]
        dsimp only
        rw [Nat.sub_self, List.range', List.map_nil]
      · have hlt : i < m := by omega
        obtain ⟨e2, he2⟩ := hfail i le_rfl hlt
        rw [fetch_with_retry_go, he2]
        dsimp only
        rw [dif_pos (by omega)]
        simp only [ih (i + 1) (by omega) (by omega)
          (fun j hj1 hj2 => hfail j (by omega) hj2)]
        have hrange : (i + 1) :: List.range' (i + 1 + 1) (m - (i + 1)) =
            List.range' (i + 1) (m - i) := by
          have hn : m - i = (m - (i + 1)) + 1 := by omega
          rw [hn, List.range'_succ]
        simp only [RetryResult.mk.injEq]
        refine ⟨by trivial, ?_, by omega⟩
        rw [← hrange]
        simp only [List.map_cons]
        have hcast : d * ((i : ℚ) + 1) = d * (((i + 1 : ℕ) : ℚ)) := by
          push_cast
          ring
        rw [hcast]

/-- Claim C8: fetch_with_retry invokes the thunk up to the resolved ceiling
(default 3) times; each failed attempt before the last sleeps
delay*(attempt_index+1) with resolved base delay (default 2); when every
allowed attempt fails, the final attempt's exception is propagated after n
calls with sleeps d*1..d*(n-1); when attempt m is the first success, its
value is returned after m+1 calls and sleeps d*1..d*m, with no further
attempts. -/
theorem C8_fetch_with_retry_contract {E α : Type} (f : ℕ → Except E α)
    (mr : Option ℕ) (dl : Option ℚ) :
    resolve_max_retries none = 3
    ∧ resolve_delay none = 2
    ∧ (∀ e : E, (∀ j, j < resolve_max_retries mr → ∃ e2, f j = Except.error e2) →
        f (resolve_max_retries mr - 1) = Except.error e →
        fetch_with_retry f mr dl =
          ⟨Except.error e,
           (List.range' 1 (resolve_max_retries mr - 1)).map
             (fun k : ℕ => resolve_delay dl * (k : ℚ)),
           resolve_max_retries mr⟩)
    ∧ (∀ (m : ℕ) (v : α), m < resolve_max_retries mr → f m = Except.ok v →
        (∀ j, j < m → ∃ e2, f j = Except.error e2) →
        fetch_with_retry f mr dl =
          ⟨Except.ok v,
           (List.range' 1 m).map (fun k : ℕ => resolve_delay dl * (k : ℚ)),
           m + 1⟩) := by
  refine ⟨rfl, rfl, ?_, ?_⟩
  · intro e hfail hlast
    have h := fetch_with_retry_go_all_fail f (resolve_delay dl)
      (resolve_max_retries mr) e hlast (resolve_max_retries mr) 0 (by omega)
      (resolve_max_retries_pos mr) (fun j _ hj2 => hfail j hj2)
    simpa [fetch_with_retry] using h
  · intro m v hm hok hfail
    have h := fetch_with_retry_go_success f (resolve_delay dl)
      (resolve_max_retries mr) m v hm hok (resolve_max_retries mr) 0 (by omega)
      (by omega) (fun j _ hj2 => hfail j hj2)
    simpa [fetch_with_retry] using h

/-- Concrete instantiation of C8_fetch_with_retry_contract. -/
theorem C8_fetch_with_retry_contract_witness :
    ((fun j : ℕ => if j = 0 then (Except.error "boom" : Except String ℕ)
        else Except.ok 7) 1 = Except.ok 7)
    ∧ (1 < resolve_max_retries none)
    ∧ fetch_with_retry
        (fun j : ℕ => if j = 0 then (Except.error "boom" : Except String ℕ)
          else Except.ok 7) none none =
        ⟨Except.ok 7, (List.range' 1 1).map (fun k : ℕ => resolve_delay none * (k : ℚ)),
         1 + 1⟩ :=
  ⟨rfl, by decide,
   (C8_fetch_with_retry_contract
      (fun j : ℕ => if j = 0 then (Except.error "boom" : Except String ℕ)
        else Except.ok 7) none none).2.2.2 1 7 (by decide) rfl
      (fun j hj => by
        have hj0 : j = 0 := by omega
        subst hj0
        exact ⟨"boom", rfl⟩)⟩

/-- Column-level abstraction of DataTransformer.add_derived_features
(data_transformation.py lines 138-239): which columns the returned frame
has, given the input frame's columns.  Without a date column the frame is
returned unchanged (lines 151-153); conversions are added when their raw
source column is present (lines 163-175); calendar columns always (lines
180-196); category columns when the converted column exists (lines
203-217); the impact score and condition when all three conversions exist
(lines 220-236). -/
def add_derived_features_columns (cols : List String) : List String :=
  if "date" ∉ cols then cols
  else
    let cols1 := cols
      ++ (if "temperature_mean" ∈ cols then ["temperature_f"] else [])
      ++ (if "precipitation" ∈ cols then ["precipitation_in"] else [])
      ++ (if "windspeed" ∈ cols then ["windspeed_mph"] else [])
    let cols2 := cols1 ++ ["year", "month", "day", "day_of_week", "day_name",
      "week_of_year", "is_weekend", "is_weekday", "quarter", "season"]
    let cols3 := cols2
      ++ (if "temperature_f" ∈ cols1 then ["temp_category"] else [])
      ++ (if "precipitation_in" ∈ cols1 then ["rain_category", "is_rainy"] else [])
    cols3 ++ (if "temperature_f" ∈ cols1 ∧ "precipitation_in" ∈ cols1
        ∧ "windspeed_mph" ∈ cols1
      then ["weather_impact_score", "weather_condition"] else [])

/-- Column-level abstraction of DataTransformer.transform_and_merge
(data_transformation.py lines 241-308): the merged frame carries the
ridership columns plus the weather columns (date is the shared join key;
other column names are assumed distinct so pandas suffixing is a no-op),
then derived features are added, then the rolling averages when a
ridership column exists (lines 286-289). -/
def transform_and_merge_columns (ridCols weaCols : List String) : List String :=
  let mergedCols := ridCols ++ weaCols.erase "date"
  let derived := add_derived_features_columns mergedCols
  derived ++ (if "ridership" ∈ derived
    then ["ridership_7day_avg", "ridership_30day_avg"] else [])

/-- app.py load_data, lines 25-68, at column granularity: given the cached
merged table's columns (if a cache file exists) and the columns the fresh
extract-transform pipeline would produce, return the columns of the table
served and whether extraction+transformation was re-run (which also
re-writes the cache file). -/
def load_data (cache : Option (List String)) (ridCols weaCols : List String) :
    List String × Bool :=
  match cache with
  | some cached =>
      if "temperature_f" ∈ cached ∧ "precipitation_in" ∈ cached then (cached, false)
      else (transform_and_merge_columns ridCols weaCols, true)
  | none => (transform_and_merge_columns ridCols weaCols, true)

lemma add_derived_features_columns_mem (cols : List String)
    (hd : "date" ∈ cols) :
    ("temperature_mean" ∈ cols →
      "temperature_f" ∈ add_derived_features_columns cols)
    ∧ ("precipitation" ∈ cols →
      "precipitation_in" ∈ add_derived_features_columns cols) := by
  rw [add_derived_features_columns, if_neg (not_not_intro hd)]
  constructor
  · intro h
    simp [h, List.mem_append]
  · intro h
    simp [h, List.mem_append]

/-- Claim C9: a cached merged table lacking temperature_f or
precipitation_in is discarded and the pipeline re-runs extraction and
transformation, producing a table that does contain both converted
columns; a cached table containing both is reused without re-extraction. -/
theorem C9_cache_invalidation (cached ridCols weaCols : List String)
    (hdate : "date" ∈ ridCols)
    (htm : "temperature_mean" ∈ weaCols)
    (hpr : "precipitation" ∈ weaCols)
    (hmiss : "temperature_f" ∉ cached ∨ "precipitation_in" ∉ cached) :
    (load_data (some cached) ridCols weaCols).2 = true
    ∧ "temperature_f" ∈ (load_data (some cached) ridCols weaCols).1
    ∧ "precipitation_in" ∈ (load_data (some cached) ridCols weaCols).1
    ∧ (∀ cachedGood : List String, "temperature_f" ∈ cachedGood →
        "precipitation_in" ∈ cachedGood →
        load_data (some cachedGood) ridCols weaCols = (cachedGood, false)) := by
  have hcond : ¬ ("temperature_f" ∈ cached ∧ "precipitation_in" ∈ cached) := by
    rcases hmiss with h | h
    · exact fun hc => h hc.1
    · exact fun hc => h hc.2
  have hload : load_data (some cached) ridCols weaCols =
      (transform_and_merge_columns ridCols weaCols, true) := by
    rw [load_data, if_neg hcond]
  have hdm : "date" ∈ ridCols ++ weaCols.erase "date" :=
    List.mem_append_left _ hdate
  have htmm : "temperature_mean" ∈ ridCols ++ weaCols.erase "date" :=
    List.mem_append_right _ (List.mem_erase_of_ne (by decide) |>.mpr htm)
  have hprm : "precipitation" ∈ ridCols ++ weaCols.erase "date" :=
    List.mem_append_right _ (List.mem_erase_of_ne (by decide) |>.mpr hpr)
  have hmems := add_derived_features_columns_mem (ridCols ++ weaCols.erase "date") hdm
  refine ⟨by rw [hload], ?_, ?_, ?_⟩
  · rw [hload]
    show "temperature_f" ∈ transform_and_merge_columns ridCols weaCols
    rw [transform_and_merge_columns]
    exact List.mem_append_left _ (hmems.1 htmm)
  · rw [hload]
    show "precipitation_in" ∈ transform_and_merge_columns ridCols weaCols
    rw [transform_and_merge_columns]
    exact List.mem_append_left _ (hmems.2 hprm)
  · intro cachedGood h1 h2
    rw [load_data, if_pos ⟨h1, h2⟩]

/-- Concrete instantiation of C9_cache_invalidation. -/
theorem C9_cache_invalidation_witness :
    ("date" ∈ ["date", "ridership"])
    ∧ ("temperature_mean" ∈ ["date", "temperature_mean", "precipitation", "windspeed"])
    ∧ ("precipitation" ∈ ["date", "temperature_mean", "precipitation", "windspeed"])
    ∧ ("temperature_f" ∉ ["date", "ridership", "temperature_mean"]
        ∨ "precipitation_in" ∉ ["date", "ridership", "temperature_mean"])
    ∧ (load_data (some ["date", "ridership", "temperature_mean"])
        ["date", "ridership"]
        ["date", "temperature_mean", "precipitation", "windspeed"]).2 = true :=
  ⟨by decide, by decide, by decide, Or.inl (by decide),
   (C9_cache_invalidation ["date", "ridership", "temperature_mean"]
      ["date", "ridership"]
      ["date", "temperature_mean", "precipitation", "windspeed"]
      (by decide) (by decide) (by decide) (Or.inl (by decide))).1⟩

end NYC
